import Mathlib

/-!
# Subscriber store of `mail-list` (`db/db.go`)

The Go functions of `db/db.go` are embedded over an explicit model of the
SQLite engine they talk to: a tokenizer and parser for the statement forms the
file uses, and an executor over the single `emails` table.  Every statement is
kept as the text that stands in the Go source, so that a statement the engine
cannot parse fails in the model just as it does in the program.
-/

set_option autoImplicit false

namespace MailList

/-! ## Values, rows and errors -/

/-- A value bound to a placeholder or read from a column. -/
inductive Value where
  | null
  | int (i : Int)
  | text (s : String)
deriving DecidableEq, Repr

/-- One stored row of `emails(id, email, confirmed_at, opt_out)`. -/
structure Row where
  id : Int
  email : String
  confirmed_at : Int
  opt_out : Bool
deriving DecidableEq, Repr

/-- The schema seen through the handle: the name `emails` is free, or it is the table
with its rows, or it is taken by an index of some other table. -/
inductive DBState where
  | noTable
  | table (rows : List Row)
  | index
deriving DecidableEq, Repr

/-- A Go `error` value: an `sqlite3.Error` with its primary code, or any other error. -/
inductive GoError where
  | sqlite (code : Nat) (msg : String)
  | other (msg : String)
deriving DecidableEq, Repr

/-! ## Tokens of the SQL text -/

/-- Lexical tokens of the statements used by the store. -/
inductive Token where
  | word (s : String)
  | num (n : Nat)
  | lparen
  | rparen
  | comma
  | eq
  | qmark
  | semi
  | bad (c : Char)
deriving DecidableEq, Repr

def isWordChar (c : Char) : Bool :=
  c.isAlphanum || c == '_'

def isSpaceChar (c : Char) : Bool :=
  c == ' ' || c == '\t' || c == '\n' || c == '\r'

def digitsToNat (cs : List Char) : Nat :=
  cs.foldl (fun n c => 10 * n + (c.toNat - 48)) 0

/-- Token for a maximal run of word characters (given in reading order). -/
def wordToken (cs : List Char) : Token :=
  if cs.all Char.isDigit then Token.num (digitsToNat cs) else Token.word (String.mk cs)

def punctToken (c : Char) : Token :=
  if c == '(' then Token.lparen
  else if c == ')' then Token.rparen
  else if c == ',' then Token.comma
  else if c == '=' then Token.eq
  else if c == '?' then Token.qmark
  else if c == ';' then Token.semi
  else Token.bad c

/-- Emit the pending word (kept reversed in `cur`), if any, in front of `rest`. -/
def flushWord (cur : List Char) (rest : List Token) : List Token :=
  match cur with
  | [] => rest
  | _ :: _ => wordToken cur.reverse :: rest

def tokenizeAux : List Char → List Char → List Token
  | [], cur => flushWord cur []
  | c :: cs, cur =>
    if isWordChar c then tokenizeAux cs (c :: cur)
    else if isSpaceChar c then flushWord cur (tokenizeAux cs [])
    else flushWord cur (punctToken c :: tokenizeAux cs [])

def tokenize (sql : String) : List Token :=
  tokenizeAux sql.data []

def upperChars (cs : List Char) : List Char := cs.map Char.toUpper

def lowerChars (cs : List Char) : List Char := cs.map Char.toLower

/-- Keywords are matched without regard to case. -/
def isKw (t : Token) (kw : String) : Bool :=
  match t with
  | Token.word s => upperChars s.data == kw.data
  | _ => false

/-- Identifiers are compared without regard to case: keep them in lower case. -/
def identName (s : String) : String := String.mk (lowerChars s.data)

def Token.text : Token → String
  | Token.word s => s
  | Token.num n => toString n
  | Token.lparen => "("
  | Token.rparen => ")"
  | Token.comma => ","
  | Token.eq => "="
  | Token.qmark => "?"
  | Token.semi => ";"
  | Token.bad c => String.singleton c

/-! ## Syntax of the statements -/

/-- An operand: a `?` placeholder (numbered from 0 in reading order), a literal or a column. -/
inductive Expr where
  | param (i : Nat)
  | lit (v : Value)
  | col (name : String)
deriving DecidableEq, Repr

/-- One `col = expr` of a `SET` list. -/
structure Assign where
  col : String
  val : Expr
deriving DecidableEq, Repr

/-- A column definition: its name, then the words of its type and constraints. -/
structure ColDef where
  name : String
  spec : List String
deriving DecidableEq, Repr

/-- The statement forms understood by the model. -/
inductive Stmt where
  | createTable (name : String) (cols : List ColDef)
  | insert (table : String) (cols : List String) (vals : List Expr)
      (upsert : Option (List String × List Assign))
  | select (cols : List String) (table : String) (wh : Option (String × Expr))
      (orderBy : Option (String × Bool)) (limit : Option Expr) (offset : Option Expr)
  | update (table : String) (sets : List Assign) (wh : Option (String × Expr))
deriving DecidableEq, Repr

/-- Where parsing stopped: at the end of the text, or at a token. -/
inductive SynErr where
  | incomplete
  | near (t : Token)
deriving DecidableEq, Repr

/-- Keywords that cannot stand where a name is expected. -/
def reservedWords : List String :=
  ["SELECT", "FROM", "WHERE", "ORDER", "LIMIT", "INSERT", "INTO", "VALUES", "UPDATE", "SET",
   "ON", "CREATE", "TABLE", "PRIMARY", "UNIQUE", "NOT", "NULL", "DEFAULT", "AND", "OR"]

def isReserved (s : String) : Bool :=
  reservedWords.any (fun kw => upperChars s.data == kw.data)

def identOfToken : Token → Option String
  | Token.word s => if isReserved s then none else some (identName s)
  | _ => none

/-- A one-token operand; `n` is the number of placeholders seen so far. -/
def exprOfToken (n : Nat) (t : Token) : Option (Expr × Nat) :=
  match t with
  | Token.qmark => some (Expr.param n, n + 1)
  | Token.num k => some (Expr.lit (Value.int k), n)
  | Token.word s =>
    if isKw t "TRUE" then some (Expr.lit (Value.int 1), n)
    else if isKw t "FALSE" then some (Expr.lit (Value.int 0), n)
    else if isKw t "NULL" then some (Expr.lit Value.null, n)
    else if isReserved s then none
    else some (Expr.col (identName s), n)
  | _ => none

def expectKw (kw : String) : List Token → Except SynErr (List Token)
  | [] => Except.error SynErr.incomplete
  | t :: ts => if isKw t kw then Except.ok ts else Except.error (SynErr.near t)

def expectTok (tok : Token) : List Token → Except SynErr (List Token)
  | [] => Except.error SynErr.incomplete
  | t :: ts => if t = tok then Except.ok ts else Except.error (SynErr.near t)

def parseIdent : List Token → Except SynErr (String × List Token)
  | [] => Except.error SynErr.incomplete
  | t :: ts =>
    match identOfToken t with
    | some name => Except.ok (name, ts)
    | none => Except.error (SynErr.near t)

def parseExpr (n : Nat) : List Token → Except SynErr ((Expr × Nat) × List Token)
  | [] => Except.error SynErr.incomplete
  | t :: ts =>
    match exprOfToken n t with
    | some r => Except.ok (r, ts)
    | none => Except.error (SynErr.near t)

/-- A comma-separated list of names. -/
def parseIdentList : List Token → Except SynErr (List String × List Token)
  | [] => Except.error SynErr.incomplete
  | t :: ts =>
    match identOfToken t with
    | none => Except.error (SynErr.near t)
    | some name =>
      match ts with
      | Token.comma :: ts1 =>
        match parseIdentList ts1 with
        | Except.error e => Except.error e
        | Except.ok (names, rest) => Except.ok (name :: names, rest)
      | _ => Except.ok ([name], ts)

/-- A comma-separated list of operands. -/
def parseExprList : Nat → List Token → Except SynErr ((List Expr × Nat) × List Token)
  | _, [] => Except.error SynErr.incomplete
  | n, t :: ts =>
    match exprOfToken n t with
    | none => Except.error (SynErr.near t)
    | some (x, n1) =>
      match ts with
      | Token.comma :: ts1 =>
        match parseExprList n1 ts1 with
        | Except.error e => Except.error e
        | Except.ok ((xs, n2), rest) => Except.ok ((x :: xs, n2), rest)
      | _ => Except.ok (([x], n1), ts)

/-- A comma-separated list of `col = operand`. -/
def parseSetList : Nat → List Token → Except SynErr ((List Assign × Nat) × List Token)
  | _, [] => Except.error SynErr.incomplete
  | n, c :: ts =>
    match identOfToken c with
    | none => Except.error (SynErr.near c)
    | some col =>
      match ts with
      | [] => Except.error SynErr.incomplete
      | q :: ts1 =>
        if q ≠ Token.eq then Except.error (SynErr.near q)
        else
          match ts1 with
          | [] => Except.error SynErr.incomplete
          | e :: ts2 =>
            match exprOfToken n e with
            | none => Except.error (SynErr.near e)
            | some (x, n1) =>
              match ts2 with
              | Token.comma :: ts3 =>
                match parseSetList n1 ts3 with
                | Except.error err => Except.error err
                | Except.ok ((sets, n2), rest) => Except.ok ((⟨col, x⟩ :: sets, n2), rest)
              | _ => Except.ok (([⟨col, x⟩], n1), ts2)

/-- Column definitions up to and including the closing parenthesis. -/
def parseColDefs : List Token → Option ColDef → Except SynErr (List ColDef × List Token)
  | [], _ => Except.error SynErr.incomplete
  | Token.word s :: ts, none =>
    if isReserved s then Except.error (SynErr.near (Token.word s))
    else parseColDefs ts (some ⟨identName s, []⟩)
  | Token.word s :: ts, some c =>
    parseColDefs ts (some ⟨c.name, c.spec ++ [String.mk (upperChars s.data)]⟩)
  | Token.comma :: ts, some c =>
    match parseColDefs ts none with
    | Except.error e => Except.error e
    | Except.ok (cs, rest) => Except.ok (c :: cs, rest)
  | Token.rparen :: ts, some c => Except.ok ([c], ts)
  | t :: _, _ => Except.error (SynErr.near t)

/-- The end of the text, after an optional `;`. -/
def parseEnd : List Token → Except SynErr Unit
  | [] => Except.ok ()
  | [Token.semi] => Except.ok ()
  | Token.semi :: t :: _ => Except.error (SynErr.near t)
  | t :: _ => Except.error (SynErr.near t)

/-- An optional `WHERE col = operand`. -/
def parseWhere (n : Nat) (ts : List Token) :
    Except SynErr ((Option (String × Expr) × Nat) × List Token) :=
  match ts with
  | [] => Except.ok ((none, n), [])
  | t :: ts1 =>
    if isKw t "WHERE" then do
      let (c, ts2) ← parseIdent ts1
      let ts3 ← expectTok Token.eq ts2
      let ((e, n1), ts4) ← parseExpr n ts3
      pure ((some (c, e), n1), ts4)
    else Except.ok ((none, n), ts)

/-- An optional `ORDER BY col [ASC|DESC]`; the flag is true for ascending. -/
def parseOrderBy (ts : List Token) : Except SynErr (Option (String × Bool) × List Token) :=
  match ts with
  | [] => Except.ok (none, [])
  | t :: ts1 =>
    if isKw t "ORDER" then do
      let ts2 ← expectKw "BY" ts1
      let (c, ts3) ← parseIdent ts2
      match ts3 with
      | d :: ts4 =>
        if isKw d "ASC" then pure (some (c, true), ts4)
        else if isKw d "DESC" then pure (some (c, false), ts4)
        else pure (some (c, true), ts3)
      | [] => pure (some (c, true), [])
    else Except.ok (none, ts)

/-- An optional `LIMIT operand [OFFSET operand]`. -/
def parseLimit (n : Nat) (ts : List Token) :
    Except SynErr ((Option Expr × Option Expr × Nat) × List Token) :=
  match ts with
  | [] => Except.ok ((none, none, n), [])
  | t :: ts1 =>
    if isKw t "LIMIT" then do
      let ((lim, n1), ts2) ← parseExpr n ts1
      match ts2 with
      | o :: ts3 =>
        if isKw o "OFFSET" then do
          let ((off, n2), ts4) ← parseExpr n1 ts3
          pure ((some lim, some off, n2), ts4)
        else pure ((some lim, none, n1), ts2)
      | [] => pure ((some lim, none, n1), [])
    else Except.ok ((none, none, n), ts)

/-- An optional `ON CONFLICT (cols) DO UPDATE SET ...`. -/
def parseUpsert (n : Nat) (ts : List Token) :
    Except SynErr ((Option (List String × List Assign) × Nat) × List Token) :=
  match ts with
  | [] => Except.ok ((none, n), [])
  | t :: ts1 =>
    if isKw t "ON" then do
      let ts2 ← expectKw "CONFLICT" ts1
      let ts3 ← expectTok Token.lparen ts2
      let (target, ts4) ← parseIdentList ts3
      let ts5 ← expectTok Token.rparen ts4
      let ts6 ← expectKw "DO" ts5
      let ts7 ← expectKw "UPDATE" ts6
      let ts8 ← expectKw "SET" ts7
      let ((sets, n1), ts9) ← parseSetList n ts8
      pure ((some (target, sets), n1), ts9)
    else Except.ok ((none, n), ts)

def parseCreateTable (ts : List Token) : Except SynErr (Stmt × Nat) := do
  let ts1 ← expectKw "TABLE" ts
  let (name, ts2) ← parseIdent ts1
  let ts3 ← expectTok Token.lparen ts2
  let (cols, ts4) ← parseColDefs ts3 none
  parseEnd ts4
  pure (Stmt.createTable name cols, 0)

def parseInsert (ts : List Token) : Except SynErr (Stmt × Nat) := do
  let ts1 ← expectKw "INTO" ts
  let (name, ts2) ← parseIdent ts1
  let ts3 ← expectTok Token.lparen ts2
  let (cols, ts4) ← parseIdentList ts3
  let ts5 ← expectTok Token.rparen ts4
  let ts6 ← expectKw "VALUES" ts5
  let ts7 ← expectTok Token.lparen ts6
  let ((vals, n), ts8) ← parseExprList 0 ts7
  let ts9 ← expectTok Token.rparen ts8
  let ((upsert, n1), ts10) ← parseUpsert n ts9
  parseEnd ts10
  pure (Stmt.insert name cols vals upsert, n1)

def parseSelect (ts : List Token) : Except SynErr (Stmt × Nat) := do
  let (cols, ts1) ← parseIdentList ts
  let ts2 ← expectKw "FROM" ts1
  let (name, ts3) ← parseIdent ts2
  let ((wh, n), ts4) ← parseWhere 0 ts3
  let (ob, ts5) ← parseOrderBy ts4
  let ((lim, off, n1), ts6) ← parseLimit n ts5
  parseEnd ts6
  pure (Stmt.select cols name wh ob lim off, n1)

def parseUpdate (ts : List Token) : Except SynErr (Stmt × Nat) := do
  let (name, ts1) ← parseIdent ts
  let ts2 ← expectKw "SET" ts1
  let ((sets, n), ts3) ← parseSetList 0 ts2
  let ((wh, n1), ts4) ← parseWhere n ts3
  parseEnd ts4
  pure (Stmt.update name sets wh, n1)

/-- Parse one statement; the number returned is the count of its placeholders. -/
def parseStmt (ts : List Token) : Except SynErr (Stmt × Nat) :=
  match ts with
  | [] => Except.error SynErr.incomplete
  | t :: ts1 =>
    if isKw t "CREATE" then parseCreateTable ts1
    else if isKw t "INSERT" then parseInsert ts1
    else if isKw t "SELECT" then parseSelect ts1
    else if isKw t "UPDATE" then parseUpdate ts1
    else Except.error (SynErr.near t)

/-! ## Execution of a statement on the `emails` table -/

/-- Primary result code `SQLITE_ERROR`: syntax errors, unknown or already existing objects. -/
def SQLITE_ERROR : Nat := 1

/-- Primary result code `SQLITE_CONSTRAINT`. -/
def SQLITE_CONSTRAINT : Nat := 19

/-- Primary result code `SQLITE_MISMATCH`. -/
def SQLITE_MISMATCH : Nat := 20

def quoted (s : String) : String :=
  String.singleton (Char.ofNat 34) ++ s ++ String.singleton (Char.ofNat 34)

/-- The error the engine reports for text it cannot parse. -/
def SynErr.toError : SynErr → GoError
  | SynErr.incomplete => GoError.sqlite SQLITE_ERROR "incomplete input"
  | SynErr.near (Token.bad c) =>
    GoError.sqlite SQLITE_ERROR ("unrecognized token: " ++ quoted (String.singleton c))
  | SynErr.near t => GoError.sqlite SQLITE_ERROR ("near " ++ quoted t.text ++ ": syntax error")

def tableExistsError : GoError := GoError.sqlite SQLITE_ERROR "table emails already exists"

def indexExistsError : GoError :=
  GoError.sqlite SQLITE_ERROR "there is already an index named emails"

def noSuchTable (name : String) : GoError :=
  GoError.sqlite SQLITE_ERROR ("no such table: " ++ name)

def noSuchColumn (name : String) : GoError :=
  GoError.sqlite SQLITE_ERROR ("no such column: " ++ name)

def mismatchError : GoError := GoError.sqlite SQLITE_MISMATCH "datatype mismatch"

def uniqueError (col : String) : GoError :=
  GoError.sqlite SQLITE_CONSTRAINT ("UNIQUE constraint failed: emails." ++ col)

def notNullError (col : String) : GoError :=
  GoError.sqlite SQLITE_CONSTRAINT ("NOT NULL constraint failed: emails." ++ col)

def columnNames : List String := ["id", "email", "confirmed_at", "opt_out"]

def boolToInt (b : Bool) : Int := if b then 1 else 0

/-- Read a column of a row; booleans are stored as the integers 0 and 1. -/
def Row.get (r : Row) (col : String) : Option Value :=
  if col = "id" then some (Value.int r.id)
  else if col = "email" then some (Value.text r.email)
  else if col = "confirmed_at" then some (Value.int r.confirmed_at)
  else if col = "opt_out" then some (Value.int (boolToInt r.opt_out))
  else none

/-- Store a value in a column of a row; a value the column cannot hold is refused. -/
def Row.set (r : Row) (col : String) (v : Value) : Except GoError Row :=
  if col = "id" then
    match v with
    | Value.int i => Except.ok { r with id := i }
    | _ => Except.error mismatchError
  else if col = "email" then
    match v with
    | Value.text s => Except.ok { r with email := s }
    | _ => Except.error mismatchError
  else if col = "confirmed_at" then
    match v with
    | Value.int i => Except.ok { r with confirmed_at := i }
    | _ => Except.error mismatchError
  else if col = "opt_out" then
    match v with
    | Value.int i =>
      if i = 1 then Except.ok { r with opt_out := true }
      else if i = 0 then Except.ok { r with opt_out := false }
      else Except.error mismatchError
    | Value.null => Except.error (notNullError "opt_out")
    | Value.text _ => Except.error mismatchError
  else Except.error (noSuchColumn col)

/-- An operand after its placeholder is bound and its column name checked. -/
inductive Operand where
  | const (v : Value)
  | column (name : String)
deriving DecidableEq, Repr

def bindExpr (args : List Value) : Expr → Except GoError Operand
  | Expr.param i =>
    match args.get? i with
    | some v => Except.ok (Operand.const v)
    | none => Except.error (GoError.other "not enough args to execute query")
  | Expr.lit v => Except.ok (Operand.const v)
  | Expr.col c =>
    if c ∈ columnNames then Except.ok (Operand.column c) else Except.error (noSuchColumn c)

def Operand.eval (r : Row) : Operand → Value
  | Operand.const v => v
  | Operand.column c => (r.get c).getD Value.null

/-- Comparison by `=`: `NULL` equals nothing, values of different kinds differ. -/
def valueEq : Value → Value → Bool
  | Value.int a, Value.int b => decide (a = b)
  | Value.text a, Value.text b => decide (a = b)
  | _, _ => false

/-- Sort order of values: `NULL` first, then integers, then text. -/
def valueLE : Value → Value → Bool
  | Value.null, _ => true
  | Value.int _, Value.null => false
  | Value.int a, Value.int b => decide (a ≤ b)
  | Value.int _, Value.text _ => true
  | Value.text a, Value.text b => !decide (b < a)
  | Value.text _, _ => false

def tableRows (st : DBState) (name : String) : Except GoError (List Row) :=
  if name = "emails" then
    match st with
    | DBState.table rows => Except.ok rows
    | _ => Except.error (noSuchTable name)
  else Except.error (noSuchTable name)

def checkColumns : List String → Except GoError Unit
  | [] => Except.ok ()
  | c :: cs => if c ∈ columnNames then checkColumns cs else Except.error (noSuchColumn c)

def bindWhere (args : List Value) :
    Option (String × Expr) → Except GoError (Option (String × Operand))
  | none => Except.ok none
  | some (c, e) =>
    if c ∈ columnNames then
      match bindExpr args e with
      | Except.ok o => Except.ok (some (c, o))
      | Except.error err => Except.error err
    else Except.error (noSuchColumn c)

def whereMatches (wh : Option (String × Operand)) (r : Row) : Bool :=
  match wh with
  | none => true
  | some (c, o) => valueEq ((r.get c).getD Value.null) (o.eval r)

def bindSets (args : List Value) : List Assign → Except GoError (List (String × Operand))
  | [] => Except.ok []
  | a :: rest =>
    if a.col ∈ columnNames then
      match bindExpr args a.val with
      | Except.error err => Except.error err
      | Except.ok o =>
        match bindSets args rest with
        | Except.error err => Except.error err
        | Except.ok os => Except.ok ((a.col, o) :: os)
    else Except.error (noSuchColumn a.col)

/-- Apply the assignments to `cur`, their right-hand sides read in the old row `old`. -/
def applySets (old : Row) : List (String × Operand) → Row → Except GoError Row
  | [], cur => Except.ok cur
  | (c, o) :: rest, cur =>
    match cur.set c (o.eval old) with
    | Except.error err => Except.error err
    | Except.ok next => applySets old rest next

/-- Rewrite every row selected by `p` with `f`; one failure fails the statement. -/
def updateRows (p : Row → Bool) (f : Row → Except GoError Row) :
    List Row → Except GoError (List Row)
  | [] => Except.ok []
  | r :: rs =>
    match (if p r then f r else Except.ok r) with
    | Except.error err => Except.error err
    | Except.ok r1 =>
      match updateRows p f rs with
      | Except.error err => Except.error err
      | Except.ok rs1 => Except.ok (r1 :: rs1)

/-- The key constraints of the table: `id` is the primary key, `email` is unique. -/
def checkKeys (rows : List Row) : Except GoError Unit :=
  if ¬ (rows.map (fun r => r.id)).Nodup then Except.error (uniqueError "id")
  else if ¬ (rows.map (fun r => r.email)).Nodup then Except.error (uniqueError "email")
  else Except.ok ()

def touchesKey (sets : List (String × Operand)) : Bool :=
  sets.any (fun s => s.1 = "id" || s.1 = "email")

/-- Order of two rows under `ORDER BY col`, ascending or descending. -/
def rowLE (col : String) (asc : Bool) (a b : Row) : Bool :=
  if asc then valueLE ((a.get col).getD Value.null) ((b.get col).getD Value.null)
  else valueLE ((b.get col).getD Value.null) ((a.get col).getD Value.null)

def sortRows (orderBy : Option (String × Bool)) (rows : List Row) : List Row :=
  match orderBy with
  | none => rows
  | some (col, asc) => rows.insertionSort (fun a b => rowLE col asc a b = true)

def intOperand : Option Operand → Except GoError (Option Int)
  | none => Except.ok none
  | some (Operand.const (Value.int i)) => Except.ok (some i)
  | some _ => Except.error mismatchError

def bindOpt (args : List Value) : Option Expr → Except GoError (Option Operand)
  | none => Except.ok none
  | some e =>
    match bindExpr args e with
    | Except.ok o => Except.ok (some o)
    | Except.error err => Except.error err

/-- `LIMIT n OFFSET m`: a negative offset skips nothing, a negative limit is no limit. -/
def applyWindow {α : Type} (limit offset : Option Int) (rows : List α) : List α :=
  let skipped :=
    match offset with
    | none => rows
    | some m => if m < 0 then rows else rows.drop m.toNat
  match limit with
  | none => skipped
  | some n => if n < 0 then skipped else skipped.take n.toNat

def project (cols : List String) (r : Row) : List Value :=
  cols.map (fun c => (r.get c).getD Value.null)

/-- The rowid given to a row inserted without an id: one more than the largest in use. -/
def nextRowId (rows : List Row) : Int :=
  match (rows.map (fun r => r.id)).max? with
  | some m => m + 1
  | none => 1

def bindValues (args : List Value) : List Expr → Except GoError (List Value)
  | [] => Except.ok []
  | e :: es =>
    match bindExpr args e with
    | Except.error err => Except.error err
    | Except.ok (Operand.column c) => Except.error (noSuchColumn c)
    | Except.ok (Operand.const v) =>
      match bindValues args es with
      | Except.error err => Except.error err
      | Except.ok vs => Except.ok (v :: vs)

/-- The row an `INSERT` stores; `email` and `confirmed_at` have to be given. -/
def buildRow (newId : Int) (cv : List (String × Value)) : Except GoError Row :=
  match cv.lookup "email", cv.lookup "confirmed_at" with
  | some (Value.text e), some (Value.int c) =>
    match (match cv.lookup "id" with
           | none => Except.ok (Row.mk newId e c false)
           | some v => (Row.mk newId e c false).set "id" v) with
    | Except.error err => Except.error err
    | Except.ok r1 =>
      match cv.lookup "opt_out" with
      | none => Except.ok r1
      | some v => r1.set "opt_out" v
  | _, _ => Except.error mismatchError

def insertRow (rows : List Row) (row : Row)
    (upsert : Option (List String × List (String × Operand))) : Except GoError (List Row) :=
  if rows.any (fun r => r.email = row.email) then
    match upsert with
    | some (["email"], sets) =>
      match updateRows (fun r => r.email = row.email) (fun r => applySets r sets r) rows with
      | Except.error err => Except.error err
      | Except.ok rows1 =>
        if touchesKey sets then
          match checkKeys rows1 with
          | Except.error err => Except.error err
          | Except.ok _ => Except.ok rows1
        else Except.ok rows1
    | _ => Except.error (uniqueError "email")
  else if rows.any (fun r => r.id = row.id) then Except.error (uniqueError "id")
  else Except.ok (rows ++ [row])

def emailsColumns (cols : List ColDef) : Bool :=
  cols.map (fun c => c.name) = columnNames

/-- Run a parsed statement: the state afterwards and the rows it yields. -/
def execStmt (st : DBState) (args : List Value) :
    Stmt → Except GoError (DBState × List (List Value))
  | Stmt.createTable name cols =>
    if name = "emails" then
      match st with
      | DBState.table _ => Except.error tableExistsError
      | DBState.index => Except.error indexExistsError
      | DBState.noTable =>
        if emailsColumns cols then Except.ok (DBState.table [], [])
        else Except.error (GoError.other "schema outside the model")
    else Except.error (GoError.other "schema outside the model")
  | Stmt.insert name cols vals upsert => do
    let rows ← tableRows st name
    checkColumns cols
    if cols.length ≠ vals.length then
      throw (GoError.sqlite SQLITE_ERROR "values and columns differ in number")
    let vs ← bindValues args vals
    let row ← buildRow (nextRowId rows) (cols.zip vs)
    let ups ←
      match upsert with
      | none => pure none
      | some (target, sets) => do
        let bound ← bindSets args sets
        pure (some (target, bound))
    let rows1 ← insertRow rows row ups
    pure (DBState.table rows1, [])
  | Stmt.select cols name wh orderBy limit offset => do
    let rows ← tableRows st name
    checkColumns cols
    let cond ← bindWhere args wh
    let lim ← bindOpt args limit
    let off ← bindOpt args offset
    let n ← intOperand lim
    let m ← intOperand off
    let hits := applyWindow n m (sortRows orderBy (rows.filter (whereMatches cond)))
    pure (st, hits.map (project cols))
  | Stmt.update name sets wh => do
    let rows ← tableRows st name
    let bound ← bindSets args sets
    let cond ← bindWhere args wh
    let rows1 ← updateRows (whereMatches cond) (fun r => applySets r bound r) rows
    if touchesKey bound then checkKeys rows1
    pure (DBState.table rows1, [])

/-- Prepare and run the text of one statement with its arguments. -/
def runSQL (st : DBState) (sql : String) (args : List Value) :
    Except GoError (DBState × List (List Value)) :=
  match parseStmt (tokenize sql) with
  | Except.error e => Except.error e.toError
  | Except.ok (stmt, n) =>
    if args.length < n then Except.error (GoError.other "not enough args to execute query")
    else execStmt st args stmt

/-! ## The Go functions of `db/db.go` -/

/-- Go's `int` and `int64` arithmetic wraps around at 64 bits. -/
def wrap64 (x : Int) : Int :=
  (x + 9223372036854775808) % 18446744073709551616 - 9223372036854775808

/-- A `time.Time`, as seconds and nanoseconds since the Unix epoch. -/
structure Time where
  sec : Int
  nsec : Int
deriving DecidableEq, Repr

/-- Go's `time.Unix(sec, nsec)`: nanoseconds outside `[0, 1e9)` are carried into seconds. -/
def Time.Unix (sec nsec : Int) : Time :=
  if nsec < 0 ∨ nsec ≥ 1000000000 then
    let n := Int.tdiv nsec 1000000000
    let sec1 := sec + n
    let nsec1 := nsec - n * 1000000000
    if nsec1 < 0 then ⟨sec1 - 1, nsec1 + 1000000000⟩ else ⟨sec1, nsec1⟩
  else ⟨sec, nsec⟩

structure EmailEntry where
  Id : Int
  Email : String
  ConfirmedAt : Option Time
  OptOut : Bool
deriving DecidableEq, Repr

/-- The handle `*sql.DB`: the schema behind it, and a failure of the connection or of the
engine (closed handle, read-only or full storage, ...) that it answers every call with. -/
structure DB where
  state : DBState
  fault : Option GoError
deriving DecidableEq, Repr

/-- How a call ends: it returns, it panics, or it ends the process (`log.Fatal`). -/
inductive Outcome (α : Type) where
  | returned (a : α)
  | panicked (msg : String)
  | exited (status : Nat)
deriving DecidableEq, Repr

def DB.run (db : DB) (query : String) (args : List Value) :
    DB × Except GoError (List (List Value)) :=
  match db.fault with
  | some e => (db, Except.error e)
  | none =>
    match runSQL db.state query args with
    | Except.error e => (db, Except.error e)
    | Except.ok (st, rows) => ({ db with state := st }, Except.ok rows)

/-- Go's `db.Exec`: the rows are dropped, the error (or nil) is kept. -/
def DB.Exec (db : DB) (query : String) (args : List Value) : DB × Option GoError :=
  match db.run query args with
  | (db1, Except.ok _) => (db1, none)
  | (db1, Except.error e) => (db1, some e)

/-- Go's `db.Query`: the rows of the result, or the error. -/
def DB.Query (db : DB) (query : String) (args : List Value) :
    DB × Except GoError (List (List Value)) :=
  db.run query args

def createTableSQL : String :=
  "\n\t\tCREATE TABLE emails (\n\t\t\tid \t\t\t\t\t\tINTEGER PRIMARY KEY,\n\t\t\temail \t\t\t\tTEXT UNIQUE,\n\t\t\tconfirmed_at\tINTEGER,\n\t\t\topt_out \t\t\tBOOLEAN NOT NULL DEFAULT FALSE\n\t\t);\n\t"

def Create (db : DB) : DB × Outcome Unit :=
  match db.Exec createTableSQL [] with
  | (db1, some err) =>
    match err with
    | GoError.sqlite code _ =>
      if code ≠ 1 then (db1, Outcome.exited 1) -- 1 = SQLITE_ERROR = table already exists
      else (db1, Outcome.returned ())
    | GoError.other _ => (db1, Outcome.exited 1)
  | (db1, none) => (db1, Outcome.returned ())

/-- Go's `row.Scan(&id, &email, &confirmedAt, &optOut)` into `int64, string, int64, bool`;
the driver hands the integer `val` of a column declared `BOOLEAN` over as `val > 0`. -/
def scanRow : List Value → Except GoError (Int × String × Int × Bool)
  | [Value.int id, Value.text email, Value.int confirmedAt, Value.int b] =>
    Except.ok (id, email, confirmedAt, decide (b > 0))
  | _ => Except.error (GoError.other "sql: Scan error")

/-- Go's `emailEntry`: the pointer to the entry, or the error of `Scan`. -/
def emailEntry (row : List Value) : Except GoError EmailEntry :=
  match scanRow row with
  | Except.error err => Except.error err
  | Except.ok (id, email, confirmedAt, optOut) =>
    let t := Time.Unix confirmedAt 0
    Except.ok { Id := id, Email := email, ConfirmedAt := some t, OptOut := optOut }

def createEmailSQL : String :=
  "\n\t\tINSERT INTO emails (email, confirmed_at, opt_out) \n\t\tVALUES (?, 0, false"

def CreateEmail (db : DB) (email : String) : DB × Option GoError :=
  match db.Exec createEmailSQL [Value.text email] with
  | (db1, some err) => (db1, some err)
  | (db1, none) => (db1, none)

def getEmailSQL : String :=
  "\n\t\tSELECT id, email, confirmed_at, opt_out \n\t\tFROM emails \n\t\tWHERE email = ?"

def GetEmail (db : DB) (email : String) : DB × Option EmailEntry × Option GoError :=
  match db.Query getEmailSQL [Value.text email] with
  | (db1, Except.error err) => (db1, none, some err)
  | (db1, Except.ok rows) =>
    match rows with
    | row :: _ =>
      match emailEntry row with
      | Except.ok entry => (db1, some entry, none)
      | Except.error err => (db1, none, some err)
    | [] => (db1, none, none)

def updateEmailSQL : String :=
  "\n\t\tINSERT INTO emails (email, confirmed_at, opt_out)\n\t\tVALUES (?, ?, false)\n\t\tON CONFLICT(email) DO UPDATE SET confirmed_at = ? opt_out = ? "

/-- `UpdateEmail`; `now` is the value of `time.Now().Unix()`. -/
def UpdateEmail (db : DB) (now : Int) (entry : EmailEntry) : DB × Option GoError :=
  let t := now
  match db.Exec updateEmailSQL
      [Value.text entry.Email, Value.int t, Value.int (boolToInt entry.OptOut), Value.int t,
       Value.int (boolToInt entry.OptOut)] with
  | (db1, some err) => (db1, some err)
  | (db1, none) => (db1, none)

def deleteEmailSQL : String :=
  "\n\t\tUPDATE emails\n\t\tSET opt_out = true\n\t\tWHERE email = ?"

def DeleteEmail (db : DB) (email : String) : DB × Option GoError :=
  match db.Exec deleteEmailSQL [Value.text email] with
  | (db1, some err) => (db1, some err)
  | (db1, none) => (db1, none)

structure GetEmailBatchQueryParams where
  Offset : Int
  Limit : Int
deriving DecidableEq, Repr

def getEmailBatchSQL : String :=
  "\n\t\tSELECT id, email, confirmed_at, opt_out\n\t\tFROM emails\n\t\tORDER BY id ASC\n\t\tLIMIT ? OFFSET ?"

/-- Bytes of one `EmailEntry` on a 64-bit target: `int64`, string header, pointer, `bool`. -/
def sizeofEmailEntry : Int := 40

/-- The largest allocation the 64-bit Go runtime accepts. -/
def maxAlloc : Int := 281474976710656

/-- The allocator of the Go runtime as the store meets it: whether a request for `n`
bytes (`n > 0`) is granted.  A request that is not granted ends the process with the fatal
error "out of memory". -/
structure Runtime where
  canAlloc : Int → Bool

/-- How `make([]EmailEntry, 0, cap)` ends. -/
inductive MakeResult where
  | ok
  | panics
  | outOfMemory
deriving DecidableEq, Repr

/-- Go's `makeslice` for `make([]EmailEntry, 0, cap)`: it panics for a negative capacity and
for one whose size in bytes exceeds `maxAlloc`; no memory is asked for an empty block; any
other size is asked of the allocator, which grants it or runs out of memory. -/
def makeslice (rt : Runtime) (cap : Int) : MakeResult :=
  let mem := sizeofEmailEntry * cap
  if cap < 0 ∨ maxAlloc < mem then MakeResult.panics
  else if mem = 0 then MakeResult.ok
  else if rt.canAlloc mem then MakeResult.ok
  else MakeResult.outOfMemory

/-- The loop `for rows.Next()` of `GetEmailBatch`, with the slice built so far. -/
def GetEmailBatch.loop : List (List Value) → List EmailEntry →
    Option (List EmailEntry) × Option GoError
  | [], emails => (some emails, none)
  | row :: rest, emails =>
    match emailEntry row with
    | Except.error err => (none, some err)
    | Except.ok entry => GetEmailBatch.loop rest (emails ++ [entry])

/-- `GetEmailBatch`; `rt` is the runtime that serves its `make`.  A fatal error of the
runtime ends the process with status 2. -/
def GetEmailBatch (rt : Runtime) (db : DB) (params : GetEmailBatchQueryParams) :
    DB × Outcome (Option (List EmailEntry) × Option GoError) :=
  match db.Query getEmailBatchSQL
      [Value.int params.Limit, Value.int (wrap64 (wrap64 (params.Offset - 1) * params.Limit))] with
  | (db1, Except.error err) => (db1, Outcome.returned (none, some err))
  | (db1, Except.ok rows) =>
    match makeslice rt params.Limit with
    | MakeResult.ok => (db1, Outcome.returned (GetEmailBatch.loop rows []))
    | MakeResult.panics => (db1, Outcome.panicked "runtime error: makeslice: cap out of range")
    | MakeResult.outOfMemory => (db1, Outcome.exited 2)

/-! ## Definitions used to state the properties -/

/-- The values of the four selected columns of a row. -/
def Row.values (r : Row) : List Value :=
  [Value.int r.id, Value.text r.email, Value.int r.confirmed_at, Value.int (boolToInt r.opt_out)]

/-- The entry `emailEntry` builds from a stored row. -/
def Row.toEntry (r : Row) : EmailEntry :=
  { Id := r.id, Email := r.email, ConfirmedAt := some (Time.Unix r.confirmed_at 0),
    OptOut := r.opt_out }

/-- The rows after `UPDATE emails SET opt_out = true WHERE email = e`. -/
def optedOut (e : String) (rows : List Row) : List Row :=
  rows.map (fun r => if r.email = e then { r with opt_out := true } else r)

/-- All rows in ascending order of `id`. -/
def byAscendingId (rows : List Row) : List Row :=
  rows.insertionSort (fun a b => a.id ≤ b.id)

/-- The (id, email) pairs of the table, in stored order. -/
def keyPairs : DBState → List (Int × String)
  | DBState.table rows => rows.map (fun r => (r.id, r.email))
  | _ => []

/-- The page as the specification words it: all rows sorted by ascending id, the first
`(offset-1) * limit` of them skipped, at most `limit` of the rest taken. -/
def specPage (rows : List Row) (offset limit : Int) : List EmailEntry :=
  (((byAscendingId rows).drop ((offset - 1) * limit).toNat).take limit.toNat).map Row.toEntry

/-- Three rows `a`, `b`, `c` in the order of their insertion. -/
def sampleRows : List Row :=
  [⟨1, "a", 0, false⟩, ⟨2, "b", 0, false⟩, ⟨3, "c", 0, false⟩]

/-- The table after the engine has inserted the given emails into the empty table, in that
order, by the `INSERT` of `CreateEmail` with its parenthesis closed (the text of the source
inserts nothing). -/
def insertedInOrder (emails : List String) : DBState :=
  emails.foldl
    (fun st e =>
      match runSQL st (createEmailSQL ++ ")") [Value.text e] with
      | Except.ok (st1, _) => st1
      | Except.error _ => st)
    (DBState.table [])

/-- A runtime that grants every request of up to one GiB. -/
def sampleRuntime : Runtime :=
  ⟨fun n => decide (n ≤ 1073741824)⟩

/-- Every (id, email) pair of `before` is still in `after`, the number of rows has not
gone down, and a row of `after` under an id of `before` is a pair of `before`. -/
def RowsKept (before after : DBState) : Prop :=
  (∀ p ∈ keyPairs before, p ∈ keyPairs after) ∧
  (keyPairs before).length ≤ (keyPairs after).length ∧
  (∀ p ∈ keyPairs after, (∃ q ∈ keyPairs before, q.1 = p.1) → p ∈ keyPairs before)

/-! ## What the engine makes of each statement of the file -/

theorem parse_createTableSQL :
    parseStmt (tokenize createTableSQL) =
      Except.ok (Stmt.createTable "emails"
        [⟨"id", ["INTEGER", "PRIMARY", "KEY"]⟩, ⟨"email", ["TEXT", "UNIQUE"]⟩,
         ⟨"confirmed_at", ["INTEGER"]⟩,
         ⟨"opt_out", ["BOOLEAN", "NOT", "NULL", "DEFAULT", "FALSE"]⟩], 0) := by
  rfl

theorem parse_createEmailSQL :
    parseStmt (tokenize createEmailSQL) = Except.error SynErr.incomplete := by
  rfl

theorem parse_getEmailSQL :
    parseStmt (tokenize getEmailSQL) =
      Except.ok (Stmt.select ["id", "email", "confirmed_at", "opt_out"] "emails"
        (some ("email", Expr.param 0)) none none none, 1) := by
  rfl

theorem parse_updateEmailSQL :
    parseStmt (tokenize updateEmailSQL) = Except.error (SynErr.near (Token.word "opt_out")) := by
  rfl

theorem parse_deleteEmailSQL :
    parseStmt (tokenize deleteEmailSQL) =
      Except.ok (Stmt.update "emails" [⟨"opt_out", Expr.lit (Value.int 1)⟩]
        (some ("email", Expr.param 0)), 1) := by
  rfl

theorem parse_getEmailBatchSQL :
    parseStmt (tokenize getEmailBatchSQL) =
      Except.ok (Stmt.select ["id", "email", "confirmed_at", "opt_out"] "emails" none
        (some ("id", true)) (some (Expr.param 0)) (some (Expr.param 1)), 2) := by
  rfl

/-- The statement of `UpdateEmail` with the comma restored between its two assignments
is an upsert: the text of the source is refused for the missing comma alone. -/
theorem parse_updateEmailSQL_comma :
    parseStmt (tokenize
      "\n\t\tINSERT INTO emails (email, confirmed_at, opt_out)\n\t\tVALUES (?, ?, false)\n\t\tON CONFLICT(email) DO UPDATE SET confirmed_at = ?, opt_out = ? ") =
      Except.ok (Stmt.insert "emails" ["email", "confirmed_at", "opt_out"]
        [Expr.param 0, Expr.param 1, Expr.lit (Value.int 0)]
        (some (["email"], [⟨"confirmed_at", Expr.param 2⟩, ⟨"opt_out", Expr.param 3⟩])), 4) := by
  rfl

/-- With the parenthesis restored the engine inserts the row the specification describes,
and refuses a second insert of the same email with `SQLITE_CONSTRAINT`. -/
theorem runSQL_createEmail_closed :
    runSQL (DBState.table []) (createEmailSQL ++ ")") [Value.text "a@example.com"] =
        Except.ok (DBState.table [⟨1, "a@example.com", 0, false⟩], []) ∧
      runSQL (DBState.table [⟨1, "a@example.com", 0, false⟩]) (createEmailSQL ++ ")")
          [Value.text "a@example.com"] =
        Except.error (GoError.sqlite 19 "UNIQUE constraint failed: emails.email") := by
  constructor <;> rfl

/-- The statement of `CreateEmail` with its closing parenthesis restored is an `INSERT`:
the text of the source is refused for the missing parenthesis alone. -/
theorem parse_createEmailSQL_closed :
    parseStmt (tokenize (createEmailSQL ++ ")")) =
      Except.ok (Stmt.insert "emails" ["email", "confirmed_at", "opt_out"]
        [Expr.param 0, Expr.lit (Value.int 0), Expr.lit (Value.int 0)] none, 1) := by
  rfl

theorem project_all (r : Row) :
    project ["id", "email", "confirmed_at", "opt_out"] r = r.values := by
  simp [project, Row.get, Row.values]

theorem runSQL_createEmail (st : DBState) (args : List Value) :
    runSQL st createEmailSQL args = Except.error (GoError.sqlite 1 "incomplete input") := by
  unfold runSQL
  rw [parse_createEmailSQL]
  rfl

theorem runSQL_updateEmail (st : DBState) (args : List Value) :
    runSQL st updateEmailSQL args =
      Except.error (GoError.sqlite 1 ("near " ++ quoted "opt_out" ++ ": syntax error")) := by
  unfold runSQL
  rw [parse_updateEmailSQL]
  rfl

theorem project_eq_values : project ["id", "email", "confirmed_at", "opt_out"] = Row.values :=
  funext project_all

theorem whereMatches_email (e : String) :
    whereMatches (some ("email", Operand.const (Value.text e))) =
      fun r => decide (r.email = e) := by
  funext r
  simp [whereMatches, Row.get, Operand.eval, valueEq]

theorem runSQL_getEmail (rows : List Row) (e : String) :
    runSQL (DBState.table rows) getEmailSQL [Value.text e] =
      Except.ok (DBState.table rows,
        (rows.filter (fun r => decide (r.email = e))).map Row.values) := by
  unfold runSQL
  rw [parse_getEmailSQL]
  simp [execStmt, tableRows, checkColumns, bindWhere, bindOpt, intOperand, bindExpr,
    columnNames, applyWindow, sortRows, bind, Except.bind, pure, Except.pure,
    project_eq_values, whereMatches_email]

theorem updateRows_total (p : Row → Bool) (g : Row → Row) (rows : List Row) :
    updateRows p (fun r => Except.ok (g r)) rows =
      Except.ok (rows.map (fun r => if p r then g r else r)) := by
  induction rows with
  | nil => rfl
  | cons r rs ih =>
    by_cases h : p r = true <;> simp [updateRows, ih, h]

theorem runSQL_deleteEmail (rows : List Row) (e : String) :
    runSQL (DBState.table rows) deleteEmailSQL [Value.text e] =
      Except.ok (DBState.table (optedOut e rows), []) := by
  unfold runSQL
  rw [parse_deleteEmailSQL]
  have hf : (fun r : Row =>
      applySets r [("opt_out", Operand.const (Value.int 1))] r) =
      fun r => Except.ok { r with opt_out := true } := by
    funext r
    simp [applySets, Row.set, Operand.eval]
  simp [execStmt, tableRows, bindSets, bindWhere, bindExpr, columnNames, touchesKey, bind,
    Except.bind, pure, Except.pure, whereMatches_email, hf, updateRows_total, optedOut]

theorem rowLE_id (a b : Row) : rowLE "id" true a b = decide (a.id ≤ b.id) := by
  simp [rowLE, Row.get, valueLE]

theorem orderedInsert_id (a : Row) (l : List Row) :
    List.orderedInsert (fun a b => rowLE "id" true a b = true) a l =
      List.orderedInsert (fun a b : Row => a.id ≤ b.id) a l := by
  induction l with
  | nil => rfl
  | cons b l ih =>
    by_cases h : a.id ≤ b.id <;> simp [List.orderedInsert, rowLE_id, h, ih]

theorem sortRows_id (rows : List Row) :
    sortRows (some ("id", true)) rows = byAscendingId rows := by
  induction rows with
  | nil => rfl
  | cons r rs ih =>
    simp only [sortRows, byAscendingId, List.insertionSort] at ih ⊢
    rw [ih, orderedInsert_id]

theorem runSQL_getEmailBatch (rows : List Row) (lim off : Int) :
    runSQL (DBState.table rows) getEmailBatchSQL [Value.int lim, Value.int off] =
      Except.ok (DBState.table rows,
        (applyWindow (some lim) (some off) (byAscendingId rows)).map Row.values) := by
  unfold runSQL
  rw [parse_getEmailBatchSQL]
  have hw : whereMatches none = fun _ => true := by
    funext r
    rfl
  simp [execStmt, tableRows, checkColumns, bindWhere, bindOpt, intOperand, bindExpr,
    columnNames, bind, Except.bind, pure, Except.pure, project_eq_values, hw, sortRows_id]

theorem emailEntry_values (r : Row) : emailEntry r.values = Except.ok r.toEntry := by
  cases h : r.opt_out <;> simp [emailEntry, scanRow, Row.values, Row.toEntry, boolToInt, h]

theorem loop_values (rows : List Row) (acc : List EmailEntry) :
    GetEmailBatch.loop (rows.map Row.values) acc = (some (acc ++ rows.map Row.toEntry), none) := by
  induction rows generalizing acc with
  | nil => simp [GetEmailBatch.loop]
  | cons r rs ih => simp [GetEmailBatch.loop, emailEntry_values, ih]

theorem wrap64_of_range (x : Int) (h1 : -9223372036854775808 ≤ x) (h2 : x < 9223372036854775808) :
    wrap64 x = x := by
  unfold wrap64
  omega

/-! ## The Go functions on a table -/

theorem CreateEmail_eq (db : DB) (email : String) :
    CreateEmail db email =
      (db, some (match db.fault with
        | some f => f
        | none => GoError.sqlite 1 "incomplete input")) := by
  obtain ⟨st, fault⟩ := db
  cases fault <;> simp [CreateEmail, DB.Exec, DB.run, runSQL_createEmail]

theorem UpdateEmail_eq (db : DB) (now : Int) (entry : EmailEntry) :
    UpdateEmail db now entry =
      (db, some (match db.fault with
        | some f => f
        | none => GoError.sqlite 1 ("near " ++ quoted "opt_out" ++ ": syntax error"))) := by
  obtain ⟨st, fault⟩ := db
  cases fault <;> simp [UpdateEmail, DB.Exec, DB.run, runSQL_updateEmail]

theorem GetEmail_table (rows : List Row) (e : String) :
    GetEmail ⟨DBState.table rows, none⟩ e =
      (⟨DBState.table rows, none⟩,
        match rows.filter (fun r => decide (r.email = e)) with
        | r :: _ => (some r.toEntry, none)
        | [] => (none, none)) := by
  simp only [GetEmail, DB.Query, DB.run, runSQL_getEmail]
  cases h : rows.filter (fun r => decide (r.email = e)) with
  | nil => simp
  | cons r rs => simp [emailEntry_values]

theorem DeleteEmail_table (rows : List Row) (e : String) :
    DeleteEmail ⟨DBState.table rows, none⟩ e = (⟨DBState.table (optedOut e rows), none⟩, none) := by
  simp [DeleteEmail, DB.Exec, DB.run, runSQL_deleteEmail]

theorem GetEmailBatch_table (rt : Runtime) (rows : List Row)
    (params : GetEmailBatchQueryParams) :
    GetEmailBatch rt ⟨DBState.table rows, none⟩ params =
      (⟨DBState.table rows, none⟩,
        match makeslice rt params.Limit with
        | MakeResult.ok =>
          Outcome.returned (some ((applyWindow (some params.Limit)
            (some (wrap64 (wrap64 (params.Offset - 1) * params.Limit)))
            (byAscendingId rows)).map Row.toEntry), none)
        | MakeResult.panics => Outcome.panicked "runtime error: makeslice: cap out of range"
        | MakeResult.outOfMemory => Outcome.exited 2) := by
  simp only [GetEmailBatch, DB.Query, DB.run, runSQL_getEmailBatch, loop_values]
  cases makeslice rt params.Limit <;> simp

theorem makeslice_ok (rt : Runtime) (cap : Int) (h0 : 0 ≤ cap)
    (hcap : sizeofEmailEntry * cap ≤ maxAlloc)
    (halloc : rt.canAlloc (sizeofEmailEntry * cap) = true) :
    makeslice rt cap = MakeResult.ok := by
  simp [makeslice, halloc, not_lt.mpr h0, not_lt.mpr hcap]

theorem makeslice_zero (rt : Runtime) : makeslice rt 0 = MakeResult.ok := by
  simp [makeslice, maxAlloc]

theorem makeslice_negative (rt : Runtime) (cap : Int) (h : cap < 0) :
    makeslice rt cap = MakeResult.panics := by
  simp [makeslice, h]

theorem runSQL_select_noTable (st : DBState) (hst : ∀ rows, st ≠ DBState.table rows)
    (cols : List String) (wh : Option (String × Expr)) (ob : Option (String × Bool))
    (lim off : Option Expr) (args : List Value) :
    execStmt st args (Stmt.select cols "emails" wh ob lim off) =
      Except.error (noSuchTable "emails") := by
  cases st with
  | table rows => exact absurd rfl (hst rows)
  | noTable => simp [execStmt, tableRows, bind, Except.bind]
  | index => simp [execStmt, tableRows, bind, Except.bind]

theorem GetEmail_state (db : DB) (e : String) : (GetEmail db e).1 = db := by
  obtain ⟨st, fault⟩ := db
  cases fault with
  | some f => simp [GetEmail, DB.Query, DB.run]
  | none =>
    cases st with
    | table rows => rw [GetEmail_table]
    | noTable =>
      simp [GetEmail, DB.Query, DB.run, runSQL, parse_getEmailSQL, runSQL_select_noTable]
    | index =>
      simp [GetEmail, DB.Query, DB.run, runSQL, parse_getEmailSQL, runSQL_select_noTable]

theorem GetEmailBatch_state (rt : Runtime) (db : DB) (params : GetEmailBatchQueryParams) :
    (GetEmailBatch rt db params).1 = db := by
  obtain ⟨st, fault⟩ := db
  cases fault with
  | some f => simp [GetEmailBatch, DB.Query, DB.run]
  | none =>
    cases st with
    | table rows => rw [GetEmailBatch_table]
    | noTable =>
      simp [GetEmailBatch, DB.Query, DB.run, runSQL, parse_getEmailBatchSQL,
        runSQL_select_noTable]
    | index =>
      simp [GetEmailBatch, DB.Query, DB.run, runSQL, parse_getEmailBatchSQL,
        runSQL_select_noTable]

theorem keyPairs_optedOut (e : String) (rows : List Row) :
    keyPairs (DBState.table (optedOut e rows)) = keyPairs (DBState.table rows) := by
  simp only [keyPairs, optedOut, List.map_map]
  apply List.map_congr_left
  intro r _
  by_cases h : r.email = e <;> simp [h]

theorem DeleteEmail_keyPairs (db : DB) (e : String) :
    keyPairs (DeleteEmail db e).1.state = keyPairs db.state := by
  obtain ⟨st, fault⟩ := db
  cases fault with
  | some f => simp [DeleteEmail, DB.Exec, DB.run]
  | none =>
    cases st with
    | table rows => rw [DeleteEmail_table, keyPairs_optedOut]
    | noTable =>
      simp [DeleteEmail, DB.Exec, DB.run, runSQL, parse_deleteEmailSQL, execStmt, tableRows,
        bind, Except.bind]
    | index =>
      simp [DeleteEmail, DB.Exec, DB.run, runSQL, parse_deleteEmailSQL, execStmt, tableRows,
        bind, Except.bind]

theorem RowsKept_of_eq (before after : DBState) (h : keyPairs after = keyPairs before) :
    RowsKept before after := by
  unfold RowsKept
  rw [h]
  exact ⟨fun _ hp => hp, le_refl _, fun p hp _ => hp⟩

theorem sorted_byAscendingId (rows : List Row) :
    (byAscendingId rows).Sorted (fun a b => a.id ≤ b.id) := by
  haveI : IsTotal Row (fun a b => a.id ≤ b.id) := ⟨fun a b => le_total a.id b.id⟩
  haveI : IsTrans Row (fun a b => a.id ≤ b.id) := ⟨fun _ _ _ h1 h2 => le_trans h1 h2⟩
  exact List.sorted_insertionSort (fun a b : Row => a.id ≤ b.id) rows

theorem perm_byAscendingId (rows : List Row) : (byAscendingId rows).Perm rows :=
  List.perm_insertionSort (fun a b : Row => a.id ≤ b.id) rows

theorem applyWindow_nonneg {α : Type} (n m : Int) (hn : 0 ≤ n) (hm : 0 ≤ m) (l : List α) :
    applyWindow (some n) (some m) l = (l.drop m.toNat).take n.toNat := by
  simp [applyWindow, not_lt.mpr hn, not_lt.mpr hm]

theorem applyWindow_negative_offset {α : Type} (n m : Int) (hn : 0 ≤ n) (hm : m < 0)
    (l : List α) : applyWindow (some n) (some m) l = l.take n.toNat := by
  simp [applyWindow, not_lt.mpr hn, hm]

theorem insertedInOrder_abc : insertedInOrder ["a", "b", "c"] = DBState.table sampleRows := by
  rfl

/-- The three pages, with limit 2, of the rows a, b, c inserted in that order. -/
theorem three_pages_of_sampleRows :
    (GetEmailBatch sampleRuntime ⟨insertedInOrder ["a", "b", "c"], none⟩ ⟨1, 2⟩).2 =
        Outcome.returned (some [⟨1, "a", some ⟨0, 0⟩, false⟩, ⟨2, "b", some ⟨0, 0⟩, false⟩],
          none) ∧
      (GetEmailBatch sampleRuntime ⟨insertedInOrder ["a", "b", "c"], none⟩ ⟨2, 2⟩).2 =
        Outcome.returned (some [⟨3, "c", some ⟨0, 0⟩, false⟩], none) ∧
      (GetEmailBatch sampleRuntime ⟨insertedInOrder ["a", "b", "c"], none⟩ ⟨3, 2⟩).2 =
        Outcome.returned (some [], none) := by
  simp only [insertedInOrder_abc, GetEmailBatch_table]
  decide

/-! ## The claims -/

/-- C1 (as amended): for every table and page parameters with offset >= 1 and limit >= 1
whose product `(offset-1) * limit` fits Go's 64-bit `int` and for which the runtime grants
`make([]EmailEntry, 0, limit)` its `40 * limit` bytes (no more than `maxAlloc`, and the
allocator does not run out of memory), `GetEmailBatch` returns with a nil error exactly the
rows sorted by ascending id, the first `(offset-1) * limit` skipped and at most `limit`
taken; the result has at most `limit` entries and is empty when the skip reaches the row
count.  With the rows a, b, c inserted in that order (by the engine: `CreateEmail` itself
inserts nothing) and limit 2, offset 1 gives `[a, b]`, offset 2 gives `[c]` and offset 3
gives `[]`. -/
theorem GetEmailBatch_page (rt : Runtime) (rows : List Row) (offset limit : Int)
    (ho : 1 ≤ offset) (hl : 1 ≤ limit)
    (hmul : (offset - 1) * limit < 9223372036854775808)
    (hcap : sizeofEmailEntry * limit ≤ maxAlloc)
    (halloc : rt.canAlloc (sizeofEmailEntry * limit) = true) :
    GetEmailBatch rt ⟨DBState.table rows, none⟩ ⟨offset, limit⟩ =
        (⟨DBState.table rows, none⟩,
          Outcome.returned (some (specPage rows offset limit), none)) ∧
      (byAscendingId rows).Perm rows ∧
      (byAscendingId rows).Sorted (fun a b => a.id ≤ b.id) ∧
      ((specPage rows offset limit).length : Int) ≤ limit ∧
      ((rows.length : Int) ≤ (offset - 1) * limit → specPage rows offset limit = []) ∧
      insertedInOrder ["a", "b", "c"] = DBState.table sampleRows ∧
      (GetEmailBatch sampleRuntime ⟨insertedInOrder ["a", "b", "c"], none⟩ ⟨1, 2⟩).2 =
        Outcome.returned (some [⟨1, "a", some ⟨0, 0⟩, false⟩, ⟨2, "b", some ⟨0, 0⟩, false⟩],
          none) ∧
      (GetEmailBatch sampleRuntime ⟨insertedInOrder ["a", "b", "c"], none⟩ ⟨2, 2⟩).2 =
        Outcome.returned (some [⟨3, "c", some ⟨0, 0⟩, false⟩], none) ∧
      (GetEmailBatch sampleRuntime ⟨insertedInOrder ["a", "b", "c"], none⟩ ⟨3, 2⟩).2 =
        Outcome.returned (some [], none) := by
  have h0 : 0 ≤ (offset - 1) * limit := mul_nonneg (by omega) (by omega)
  have h1 : offset - 1 ≤ (offset - 1) * limit := by nlinarith
  have hw1 : wrap64 (offset - 1) = offset - 1 := wrap64_of_range _ (by omega) (by omega)
  have hw2 : wrap64 ((offset - 1) * limit) = (offset - 1) * limit :=
    wrap64_of_range _ (by omega) hmul
  have hok : makeslice rt limit = MakeResult.ok := makeslice_ok rt limit (by omega) hcap halloc
  refine ⟨?_, perm_byAscendingId rows, sorted_byAscendingId rows, ?_, ?_,
    insertedInOrder_abc, three_pages_of_sampleRows⟩
  · rw [GetEmailBatch_table]
    simp only [hok, hw1, hw2]
    rw [applyWindow_nonneg limit _ (by omega) h0]
    rfl
  · have hlen : (specPage rows offset limit).length ≤ limit.toNat := by
      simp [specPage, List.length_take]
    have : ((limit.toNat : Nat) : Int) = limit := Int.toNat_of_nonneg (by omega)
    omega
  · intro hbig
    have hlen : (byAscendingId rows).length ≤ ((offset - 1) * limit).toNat := by
      rw [byAscendingId, List.length_insertionSort]
      omega
    simp [specPage, List.drop_eq_nil_of_le hlen]

/-- C1, witness: rows a, b, c and limit 2 give the second page `[c]`. -/
theorem GetEmailBatch_page_witness :
    (1 : Int) ≤ 2 ∧ (2 - 1) * 2 < (9223372036854775808 : Int) ∧
      sizeofEmailEntry * 2 ≤ maxAlloc ∧
      sampleRuntime.canAlloc (sizeofEmailEntry * 2) = true ∧
      GetEmailBatch sampleRuntime ⟨DBState.table sampleRows, none⟩ ⟨2, 2⟩ =
        (⟨DBState.table sampleRows, none⟩,
          Outcome.returned (some (specPage sampleRows 2 2), none)) ∧
      (byAscendingId sampleRows).Perm sampleRows ∧
      (byAscendingId sampleRows).Sorted (fun a b => a.id ≤ b.id) ∧
      ((specPage sampleRows 2 2).length : Int) ≤ 2 ∧
      ((sampleRows.length : Int) ≤ (2 - 1) * 2 → specPage sampleRows 2 2 = []) ∧
      insertedInOrder ["a", "b", "c"] = DBState.table sampleRows ∧
      (GetEmailBatch sampleRuntime ⟨insertedInOrder ["a", "b", "c"], none⟩ ⟨1, 2⟩).2 =
        Outcome.returned (some [⟨1, "a", some ⟨0, 0⟩, false⟩, ⟨2, "b", some ⟨0, 0⟩, false⟩],
          none) ∧
      (GetEmailBatch sampleRuntime ⟨insertedInOrder ["a", "b", "c"], none⟩ ⟨2, 2⟩).2 =
        Outcome.returned (some [⟨3, "c", some ⟨0, 0⟩, false⟩], none) ∧
      (GetEmailBatch sampleRuntime ⟨insertedInOrder ["a", "b", "c"], none⟩ ⟨3, 2⟩).2 =
        Outcome.returned (some [], none) :=
  ⟨by decide, by decide, by decide, by decide,
    GetEmailBatch_page sampleRuntime sampleRows 2 2 (by decide) (by decide) (by decide)
      (by decide) (by decide)⟩

/-- C1 (as stated) fails: with offset `2^62 + 1` and limit 2 the product `(offset-1) * limit`
wraps to a negative `OFFSET`, which skips nothing, so the first two rows come back where
the claim has an empty page. -/
theorem GetEmailBatch_offset_wraps :
    (1 : Int) ≤ 4611686018427387905 ∧ (1 : Int) ≤ 2 ∧
      GetEmailBatch sampleRuntime ⟨DBState.table sampleRows, none⟩ ⟨4611686018427387905, 2⟩ =
        (⟨DBState.table sampleRows, none⟩,
          Outcome.returned (some [⟨1, "a", some ⟨0, 0⟩, false⟩, ⟨2, "b", some ⟨0, 0⟩, false⟩],
            none)) ∧
      specPage sampleRows 4611686018427387905 2 = [] ∧
      GetEmailBatch sampleRuntime ⟨DBState.table sampleRows, none⟩ ⟨4611686018427387905, 2⟩ ≠
        (⟨DBState.table sampleRows, none⟩,
          Outcome.returned (some (specPage sampleRows 4611686018427387905 2), none)) := by
  have hpage : specPage sampleRows 4611686018427387905 2 = [] := by
    simp [specPage, sampleRows, byAscendingId]
  have hrun : GetEmailBatch sampleRuntime ⟨DBState.table sampleRows, none⟩
      ⟨4611686018427387905, 2⟩ =
      (⟨DBState.table sampleRows, none⟩,
        Outcome.returned (some [⟨1, "a", some ⟨0, 0⟩, false⟩, ⟨2, "b", some ⟨0, 0⟩, false⟩],
          none)) := by
    rw [GetEmailBatch_table]
    decide
  refine ⟨by decide, by decide, hrun, hpage, ?_⟩
  rw [hrun, hpage]
  decide

/-- C5 (as amended): no `InvalidArgument` is produced for non-positive parameters.  With
limit 0, and with limit >= 1 and offset <= 0 whose product `(offset-1) * limit` fits Go's
`int` and for which the runtime grants `make([]EmailEntry, 0, limit)` its `40 * limit`
bytes, `GetEmailBatch` returns a nil error and a list: the first `limit` rows by ascending
id, which is the empty list for limit 0. -/
theorem GetEmailBatch_nonpositive_params (rt : Runtime) (rows : List Row)
    (offset limit : Int)
    (h : limit = 0 ∨
      (1 ≤ limit ∧ sizeofEmailEntry * limit ≤ maxAlloc ∧
        rt.canAlloc (sizeofEmailEntry * limit) = true ∧ offset ≤ 0 ∧
        -9223372036854775808 ≤ (offset - 1) * limit)) :
    GetEmailBatch rt ⟨DBState.table rows, none⟩ ⟨offset, limit⟩ =
      (⟨DBState.table rows, none⟩,
        Outcome.returned
          (some (((byAscendingId rows).take limit.toNat).map Row.toEntry), none)) := by
  rw [GetEmailBatch_table]
  rcases h with h0 | ⟨hl, hcap, halloc, ho, hmul⟩
  · subst h0
    have hw : wrap64 0 = 0 := by decide
    simp [makeslice_zero, hw, applyWindow]
  · have h1 : (offset - 1) * limit ≤ offset - 1 := by nlinarith
    have hw1 : wrap64 (offset - 1) = offset - 1 := wrap64_of_range _ (by omega) (by omega)
    have hw2 : wrap64 ((offset - 1) * limit) = (offset - 1) * limit :=
      wrap64_of_range _ hmul (by omega)
    have hok : makeslice rt limit = MakeResult.ok :=
      makeslice_ok rt limit (by omega) hcap halloc
    simp only [hok, hw1, hw2]
    rw [applyWindow_negative_offset limit _ (by omega) (by omega)]

/-- C5, witness: offset 0 with limit 2 on the rows a, b, c. -/
theorem GetEmailBatch_nonpositive_params_witness :
    ((2 : Int) = 0 ∨
      (1 ≤ (2 : Int) ∧ sizeofEmailEntry * 2 ≤ maxAlloc ∧
        sampleRuntime.canAlloc (sizeofEmailEntry * 2) = true ∧ (0 : Int) ≤ 0 ∧
        -9223372036854775808 ≤ ((0 : Int) - 1) * 2)) ∧
      GetEmailBatch sampleRuntime ⟨DBState.table sampleRows, none⟩ ⟨0, 2⟩ =
        (⟨DBState.table sampleRows, none⟩,
          Outcome.returned
            (some (((byAscendingId sampleRows).take (2 : Int).toNat).map Row.toEntry), none)) :=
  ⟨by decide, GetEmailBatch_nonpositive_params sampleRuntime sampleRows 0 2 (by decide)⟩

/-- C5 (as stated) fails: with offset 0 and limit 0 `GetEmailBatch` returns an empty list
and a nil error, not an error without a list. -/
theorem GetEmailBatch_zero_params_no_error :
    GetEmailBatch sampleRuntime ⟨DBState.table sampleRows, none⟩ ⟨0, 0⟩ =
        (⟨DBState.table sampleRows, none⟩, Outcome.returned (some [], none)) ∧
      ¬ ∃ err : GoError,
        (GetEmailBatch sampleRuntime ⟨DBState.table sampleRows, none⟩ ⟨0, 0⟩).2 =
          Outcome.returned (none, some err) := by
  have hrun : GetEmailBatch sampleRuntime ⟨DBState.table sampleRows, none⟩ ⟨0, 0⟩ =
      (⟨DBState.table sampleRows, none⟩, Outcome.returned (some [], none)) := by
    rw [GetEmailBatch_table]
    decide
  refine ⟨hrun, ?_⟩
  rw [hrun]
  rintro ⟨err, herr⟩
  cases herr

/-- A negative limit makes `make([]EmailEntry, 0, params.Limit)` panic after the query. -/
theorem GetEmailBatch_negative_limit_panics (rt : Runtime) (rows : List Row)
    (offset limit : Int) (hl : limit < 0) :
    (GetEmailBatch rt ⟨DBState.table rows, none⟩ ⟨offset, limit⟩).2 =
      Outcome.panicked "runtime error: makeslice: cap out of range" := by
  rw [GetEmailBatch_table, makeslice_negative rt limit hl]

/-- A limit whose slice would exceed `maxAlloc` makes `make` panic as well: with offset 1
and limit `2^62` nothing overflows in `(offset-1) * limit`, and the call does not return. -/
theorem GetEmailBatch_huge_limit_panics (rt : Runtime) :
    (GetEmailBatch rt ⟨DBState.table sampleRows, none⟩ ⟨1, 4611686018427387904⟩).2 =
      Outcome.panicked "runtime error: makeslice: cap out of range" := by
  rw [GetEmailBatch_table]
  simp [makeslice, sizeofEmailEntry, maxAlloc]

/-- A slice within `maxAlloc` that the allocator does not grant ends the process: with
offset 1 and limit 7036874417766 (just under `2^48` bytes) on a runtime that grants one GiB,
the call does not return. -/
theorem GetEmailBatch_out_of_memory :
    (GetEmailBatch sampleRuntime ⟨DBState.table sampleRows, none⟩ ⟨1, 7036874417766⟩).2 =
      Outcome.exited 2 := by
  rw [GetEmailBatch_table]
  decide

/-- C2, the code at a failing input: on an empty table `CreateEmail` fails with the
syntax error of its unclosed `VALUES (` list (as it does on every table), inserts nothing,
and the following `GetEmail` finds no entry. -/
theorem CreateEmail_then_GetEmail_not_found :
    CreateEmail ⟨DBState.table [], none⟩ "a@example.com" =
        (⟨DBState.table [], none⟩, some (GoError.sqlite 1 "incomplete input")) ∧
      GetEmail (CreateEmail ⟨DBState.table [], none⟩ "a@example.com").1 "a@example.com" =
        (⟨DBState.table [], none⟩, none, none) ∧
      ∀ (rows : List Row) (email : String),
        CreateEmail ⟨DBState.table rows, none⟩ email =
          (⟨DBState.table rows, none⟩, some (GoError.sqlite 1 "incomplete input")) := by
  refine ⟨by rw [CreateEmail_eq], ?_, fun rows email => by rw [CreateEmail_eq]⟩
  rw [CreateEmail_eq, GetEmail_table]
  rfl

/-- C3, the code at a failing input: the second of two `CreateEmail` calls returns the
generic `SQLITE_ERROR` (code 1) of a syntax error, not a constraint violation (code 19),
and the table holds no row for the email. -/
theorem CreateEmail_twice_syntax_error :
    (CreateEmail (CreateEmail ⟨DBState.table [], none⟩ "a@example.com").1 "a@example.com") =
        (⟨DBState.table [], none⟩, some (GoError.sqlite SQLITE_ERROR "incomplete input")) ∧
      SQLITE_ERROR ≠ SQLITE_CONSTRAINT ∧
      ∀ (rows : List Row) (email : String),
        (CreateEmail (CreateEmail ⟨DBState.table rows, none⟩ email).1 email) =
          (⟨DBState.table rows, none⟩, some (GoError.sqlite SQLITE_ERROR "incomplete input")) := by
  refine ⟨by simp [CreateEmail_eq, SQLITE_ERROR], by decide, fun rows email => ?_⟩
  simp [CreateEmail_eq, SQLITE_ERROR]

/-- C4, the code at a failing input: `UpdateEmail` fails with the syntax error at the
second assignment of its `SET` list (as it does on every table), and leaves the table
without a row for the email. -/
theorem UpdateEmail_syntax_error :
    UpdateEmail ⟨DBState.table [], none⟩ 1700000000 ⟨0, "a@example.com", none, true⟩ =
        (⟨DBState.table [], none⟩,
          some (GoError.sqlite 1 ("near " ++ quoted "opt_out" ++ ": syntax error"))) ∧
      GetEmail (UpdateEmail ⟨DBState.table [], none⟩ 1700000000
          ⟨0, "a@example.com", none, true⟩).1 "a@example.com" =
        (⟨DBState.table [], none⟩, none, none) ∧
      ∀ (rows : List Row) (now : Int) (entry : EmailEntry),
        UpdateEmail ⟨DBState.table rows, none⟩ now entry =
          (⟨DBState.table rows, none⟩,
            some (GoError.sqlite 1 ("near " ++ quoted "opt_out" ++ ": syntax error"))) := by
  refine ⟨by rw [UpdateEmail_eq], ?_, fun rows now entry => by rw [UpdateEmail_eq]⟩
  rw [UpdateEmail_eq, GetEmail_table]
  rfl

theorem filter_email_unique (rows : List Row) (e : String)
    (hnd : (rows.map (fun r => r.email)).Nodup) (r : Row) (hr : r ∈ rows) (he : r.email = e) :
    rows.filter (fun x => decide (x.email = e)) = [r] := by
  induction rows with
  | nil => cases hr
  | cons x xs ih =>
    rw [List.map_cons, List.nodup_cons] at hnd
    obtain ⟨hx, hxs⟩ := hnd
    rcases List.mem_cons.mp hr with hrx | hrxs
    · subst hrx
      have hnone : xs.filter (fun x => decide (x.email = e)) = [] := by
        rw [List.filter_eq_nil_iff]
        intro y hy hye
        apply hx
        have : y.email = r.email := by
          rw [he]
          simpa using hye
        rw [← this]
        exact List.mem_map_of_mem (fun r => r.email) hy
      simp [List.filter_cons, he, hnone]
    · have hxe : x.email ≠ e := by
        intro hxe
        apply hx
        rw [hxe, ← he]
        exact List.mem_map_of_mem (fun r => r.email) hrxs
      simp [List.filter_cons, hxe, ih hxs hrxs]

theorem optedOut_absent (rows : List Row) (e : String) (h : ∀ r ∈ rows, r.email ≠ e) :
    optedOut e rows = rows := by
  induction rows with
  | nil => rfl
  | cons x xs ih =>
    have hx : x.email ≠ e := h x (List.mem_cons_self x xs)
    have hxs : optedOut e xs = xs := ih (fun r hr => h r (List.mem_cons_of_mem x hr))
    simp only [optedOut, List.map_cons, hx, if_false] at hxs ⊢
    rw [hxs]

/-- C6: for every table and every email `e` that has a row `r`, `DeleteEmail e` returns nil
and leaves a table of the same length in which `r` stands with the same id, email and
confirmed_at and with opt_out true, and whose rows of another email are those of before. -/
theorem DeleteEmail_sets_opt_out (rows : List Row) (e : String) (r : Row) (hr : r ∈ rows)
    (he : r.email = e) :
    ∃ rows1 : List Row,
      DeleteEmail ⟨DBState.table rows, none⟩ e = (⟨DBState.table rows1, none⟩, none) ∧
      (⟨r.id, r.email, r.confirmed_at, true⟩ : Row) ∈ rows1 ∧
      rows1.length = rows.length ∧
      rows1.map (fun x => x.id) = rows.map (fun x => x.id) ∧
      (∀ x ∈ rows, x.email ≠ e → x ∈ rows1) ∧
      (∀ y ∈ rows1, y.email ≠ e → y ∈ rows) := by
  refine ⟨optedOut e rows, DeleteEmail_table rows e, ?_, ?_, ?_, ?_, ?_⟩
  · simp only [optedOut, List.mem_map]
    exact ⟨r, hr, by simp [he]⟩
  · simp [optedOut]
  · simp only [optedOut, List.map_map]
    apply List.map_congr_left
    intro x _
    by_cases h : x.email = e <;> simp [h]
  · intro x hx hxe
    simp only [optedOut, List.mem_map]
    exact ⟨x, hx, by simp [hxe]⟩
  · intro y hy hye
    simp only [optedOut, List.mem_map] at hy
    obtain ⟨x, hx, hxy⟩ := hy
    by_cases h : x.email = e
    · simp only [h, if_true] at hxy
      subst hxy
      exact absurd rfl hye
    · simp only [h, if_false] at hxy
      subst hxy
      exact hx

/-- C6, witness: unsubscribing `b` in the rows a, b, c. -/
theorem DeleteEmail_sets_opt_out_witness :
    (⟨2, "b", 0, false⟩ : Row) ∈ sampleRows ∧ (⟨2, "b", 0, false⟩ : Row).email = "b" ∧
      ∃ rows1 : List Row,
        DeleteEmail ⟨DBState.table sampleRows, none⟩ "b" =
          (⟨DBState.table rows1, none⟩, none) ∧
        (⟨2, "b", 0, true⟩ : Row) ∈ rows1 ∧
        rows1.length = sampleRows.length ∧
        rows1.map (fun x => x.id) = sampleRows.map (fun x => x.id) ∧
        (∀ x ∈ sampleRows, x.email ≠ "b" → x ∈ rows1) ∧
        (∀ y ∈ rows1, y.email ≠ "b" → y ∈ sampleRows) :=
  ⟨by decide, rfl,
    DeleteEmail_sets_opt_out sampleRows "b" ⟨2, "b", 0, false⟩ (by decide) rfl⟩

/-- C7: for every table and every email `e` without a row, `DeleteEmail e` returns nil and
leaves the table exactly as it was. -/
theorem DeleteEmail_absent_noop (rows : List Row) (e : String)
    (h : ∀ r ∈ rows, r.email ≠ e) :
    DeleteEmail ⟨DBState.table rows, none⟩ e = (⟨DBState.table rows, none⟩, none) := by
  rw [DeleteEmail_table, optedOut_absent rows e h]

/-- C7, witness: unsubscribing `z` in the rows a, b, c. -/
theorem DeleteEmail_absent_noop_witness :
    (∀ r ∈ sampleRows, r.email ≠ "z") ∧
      DeleteEmail ⟨DBState.table sampleRows, none⟩ "z" =
        (⟨DBState.table sampleRows, none⟩, none) :=
  ⟨by decide, DeleteEmail_absent_noop sampleRows "z" (by decide)⟩

/-- C8: for every table with pairwise distinct emails and every email `e`, `GetEmail e`
returns the not-found result (nil entry and nil error) exactly when no row has email `e`;
otherwise it returns, with a nil error, the row of email `e` with its id and opt_out and
with its confirmed_at `c` as `time.Unix(c, 0)`.  The table is not changed. -/
theorem GetEmail_found_iff (rows : List Row) (e : String)
    (hnd : (rows.map (fun r => r.email)).Nodup) :
    ((GetEmail ⟨DBState.table rows, none⟩ e).2 = (none, none) ↔ ∀ r ∈ rows, r.email ≠ e) ∧
      (∀ r ∈ rows, r.email = e →
        (GetEmail ⟨DBState.table rows, none⟩ e).2 =
          (some ⟨r.id, r.email, some (Time.Unix r.confirmed_at 0), r.opt_out⟩, none)) ∧
      (GetEmail ⟨DBState.table rows, none⟩ e).1 = ⟨DBState.table rows, none⟩ := by
  have hfound : ∀ r ∈ rows, r.email = e →
      (GetEmail ⟨DBState.table rows, none⟩ e).2 =
        (some ⟨r.id, r.email, some (Time.Unix r.confirmed_at 0), r.opt_out⟩, none) := by
    intro r hr he
    rw [GetEmail_table, filter_email_unique rows e hnd r hr he]
    rfl
  refine ⟨⟨?_, ?_⟩, hfound, by rw [GetEmail_table]⟩
  · intro hnone r hr he
    rw [hfound r hr he] at hnone
    cases hnone
  · intro hall
    have hfil : rows.filter (fun r => decide (r.email = e)) = [] := by
      rw [List.filter_eq_nil_iff]
      intro r hr
      simpa using hall r hr
    rw [GetEmail_table, hfil]

/-- C8, witness: looking up `b` in the rows a, b, c. -/
theorem GetEmail_found_iff_witness :
    (sampleRows.map (fun r => r.email)).Nodup ∧
      ((GetEmail ⟨DBState.table sampleRows, none⟩ "b").2 = (none, none) ↔
        ∀ r ∈ sampleRows, r.email ≠ "b") ∧
      (∀ r ∈ sampleRows, r.email = "b" →
        (GetEmail ⟨DBState.table sampleRows, none⟩ "b").2 =
          (some ⟨r.id, r.email, some (Time.Unix r.confirmed_at 0), r.opt_out⟩, none)) ∧
      (GetEmail ⟨DBState.table sampleRows, none⟩ "b").1 = ⟨DBState.table sampleRows, none⟩ :=
  ⟨by decide, GetEmail_found_iff sampleRows "b" (by decide)⟩

/-- C9: no store operation removes a row.  For every handle (any table, any failure of the
connection) and every call of `CreateEmail`, `GetEmail`, `UpdateEmail`, `DeleteEmail` or
`GetEmailBatch`, every (id, email) pair of the table before the call is in the table after
it, the row count does not go down, and no id of before stands with another email; for
`GetEmailBatch` on every runtime as well. -/
theorem no_operation_removes_a_row (rt : Runtime) (db : DB) (email : String) (now : Int)
    (entry : EmailEntry) (params : GetEmailBatchQueryParams) :
    RowsKept db.state (CreateEmail db email).1.state ∧
      RowsKept db.state (GetEmail db email).1.state ∧
      RowsKept db.state (UpdateEmail db now entry).1.state ∧
      RowsKept db.state (DeleteEmail db email).1.state ∧
      RowsKept db.state (GetEmailBatch rt db params).1.state := by
  refine ⟨RowsKept_of_eq _ _ ?_, RowsKept_of_eq _ _ ?_, RowsKept_of_eq _ _ ?_,
    RowsKept_of_eq _ _ (DeleteEmail_keyPairs db email), RowsKept_of_eq _ _ ?_⟩
  · rw [CreateEmail_eq]
  · rw [GetEmail_state]
  · rw [UpdateEmail_eq]
  · rw [GetEmailBatch_state]

/-- What the guard of `Create` lets through: the call returns normally exactly when the
statement succeeded or failed with an `sqlite3.Error` of code 1, and ends the process with
status 1 otherwise.  On an existing table it returns normally and leaves the table and its
rows untouched; where the name is free it creates the empty table. -/
theorem Create_guard (db : DB) :
    ((Create db).2 = Outcome.returned () ↔
        ((db.Exec createTableSQL []).2 = none ∨
          ∃ msg, (db.Exec createTableSQL []).2 = some (GoError.sqlite 1 msg))) ∧
      ((Create db).2 ≠ Outcome.returned () → (Create db).2 = Outcome.exited 1) ∧
      (∀ rows : List Row,
        (DB.Exec ⟨DBState.table rows, none⟩ createTableSQL []).2 = some tableExistsError ∧
        Create ⟨DBState.table rows, none⟩ = (⟨DBState.table rows, none⟩, Outcome.returned ())) ∧
      Create ⟨DBState.noTable, none⟩ = (⟨DBState.table [], none⟩, Outcome.returned ()) := by
  refine ⟨?_, ?_, ?_, ?_⟩
  · unfold Create
    rcases hx : db.Exec createTableSQL [] with ⟨db1, err⟩
    cases err with
    | none => simp
    | some e =>
      cases e with
      | sqlite code msg => by_cases hc : code = 1 <;> simp [hc]
      | other msg => simp
  · unfold Create
    rcases hx : db.Exec createTableSQL [] with ⟨db1, err⟩
    cases err with
    | none => simp
    | some e =>
      cases e with
      | sqlite code msg => by_cases hc : code = 1 <;> simp [hc]
      | other msg => simp
  · intro rows
    have hexec : DB.Exec ⟨DBState.table rows, none⟩ createTableSQL [] =
        (⟨DBState.table rows, none⟩, some tableExistsError) := by
      simp [DB.Exec, DB.run, runSQL, parse_createTableSQL, execStmt]
    refine ⟨by rw [hexec], ?_⟩
    unfold Create
    rw [hexec]
    rfl
  · rfl

/-- C10, the code at a failing input: where `emails` names an index, `CREATE TABLE` fails
with code 1 and "there is already an index named emails"; the statement did not succeed,
the failure is not "table already exists", and `Create` returns normally all the same,
where the claim (and the comment on the guard) has the process end. -/
theorem Create_returns_on_index_name_clash :
    (DB.Exec ⟨DBState.index, none⟩ createTableSQL []).2 = some indexExistsError ∧
      indexExistsError ≠ tableExistsError ∧
      Create ⟨DBState.index, none⟩ = (⟨DBState.index, none⟩, Outcome.returned ()) ∧
      ¬ ((Create ⟨DBState.index, none⟩).2 = Outcome.returned () ↔
        ((DB.Exec ⟨DBState.index, none⟩ createTableSQL []).2 = none ∨
          (DB.Exec ⟨DBState.index, none⟩ createTableSQL []).2 = some tableExistsError)) := by
  have hexec : DB.Exec ⟨DBState.index, none⟩ createTableSQL [] =
      (⟨DBState.index, none⟩, some indexExistsError) := by
    simp [DB.Exec, DB.run, runSQL, parse_createTableSQL, execStmt]
  have hne : indexExistsError ≠ tableExistsError := by decide
  have hcreate : Create ⟨DBState.index, none⟩ = (⟨DBState.index, none⟩, Outcome.returned ()) := by
    unfold Create
    rw [hexec]
    rfl
  refine ⟨by rw [hexec], hne, hcreate, ?_⟩
  rw [hcreate, hexec]
  intro hiff
  rcases hiff.mp rfl with h | h
  · cases h
  · exact hne (Option.some.inj h)

end MailList
